import Mathlib

/-!
Shallow embedding of the Gomag product-import pipeline
(`src/pipeline.py`, `src/models.py`, `src/fetch.py`, `src/export_gomag.py`,
`src/scrapers/*.py`, `src/gomag_ui.py`) and proofs about it.

Network and DOM effects are modelled by explicit oracles: a `parse` oracle
returns either a `ProductDraft` or a raised Python exception (`PyExc`);
BeautifulSoup query results appear as explicit record fields.  Python floats
are idealised as `Rat`.
-/

namespace Gomag

/-- A raised Python exception: its type name and its message. -/
structure PyExc where
  typeName : String
  msg : String
deriving DecidableEq, Repr

/-- A Python value stored in the `price : Optional[float]` slot: either a
number, or a value that `float(...)` rejects (the `except` branch of
`price_final`). -/
inductive FloatLike where
  | num (q : Rat)
  | unconv
deriving DecidableEq, Repr

/-- `Variant` dataclass from `src/models.py`. -/
structure Variant where
  color : Option String := none
  size : Option String := none
  sku : Option String := none
  price : Option Rat := none
  images : List String := []
deriving DecidableEq, Repr

/-- `ProductDraft` dataclass from `src/models.py`. -/
structure ProductDraft where
  source_url : String
  domain : String
  sku : String
  title : String
  description_html : String := ""
  short_description : String := ""
  specs : List (String × String) := []
  images : List String := []
  price : Option FloatLike := none
  currency : String := "RON"
  variants : List Variant := []
  needs_translation : Bool := false
  notes : String := ""
deriving DecidableEq, Repr

/-- `ProductDraft.price_final` from `src/models.py`: `1.0` when the price is
`None`, `1.0` when `float(self.price)` raises, else `max(1.0, price * 2.0)`. -/
def price_final (price : Option FloatLike) : Rat :=
  match price with
  | none => 1
  | some (.num q) => max 1 (q * 2)
  | some .unconv => 1

/-- The fallback draft built in the `except` arm of `scrape_products`
(`src/pipeline.py`). -/
def errorDraft (url : String) (e : PyExc) : ProductDraft :=
  { source_url := url
    domain := ""
    sku := ""
    title := "(EROARE SCRAPING)"
    description_html := ""
    short_description := ""
    images := []
    price := none
    needs_translation := false
    notes := "error=" ++ e.typeName ++ ": " ++ e.msg }

/-- `scrape_products` from `src/pipeline.py`.  The dispatched scraper's
`parse` is an oracle returning the draft or the exception it raised. -/
def scrape_products (parse : String → Except PyExc ProductDraft)
    (urls : List String) : List ProductDraft :=
  urls.map (fun url =>
    match parse url with
    | .ok d => d
    | .error e => errorDraft url e)

/-! ## Scraper registry (`src/scrapers/registry.py`) -/

/-- A registered scraper: `canHandle url = none` models `can_handle`
raising an exception, `some b` models it returning `b`. -/
structure ScraperM where
  name : String
  canHandle : String → Option Bool

/-- `GenericScraper` (`src/scrapers/generic.py`): `can_handle` returns
`True` for every url. -/
def genericScraperM : ScraperM :=
  { name := "GenericScraper", canHandle := fun _ => some true }

/-- The `SCRAPERS` registry: eleven site scrapers followed by
`GenericScraper` last.  The site scrapers are abstract parameters. -/
def mkRegistry (siteScrapers : List ScraperM) : List ScraperM :=
  siteScrapers ++ [genericScraperM]

/-- `get_scraper` from `src/scrapers/registry.py`: first scraper whose
`can_handle(url)` returns `True`, skipping ones that raise; falls back to a
fresh `GenericScraper` when the loop finds none. -/
def get_scraper (registry : List ScraperM) (url : String) : ScraperM :=
  match registry.find? (fun s => s.canHandle url == some true) with
  | some s => s
  | none => genericScraperM

/-! ## Retry loop (`src/fetch.py`, `_get_with_retries`) -/

/-- An HTTP response, abstracted to an identifier plus its status code. -/
structure Resp where
  id : Nat
  status : Nat
deriving DecidableEq, Repr

/-- Outcome of one `get_fn(url, ...)` call: a response, or a raised
exception. -/
inductive Attempt where
  | resp (r : Resp)
  | exc (e : PyExc)
deriving DecidableEq, Repr

/-- The statuses `_get_with_retries` treats as temporary blocks. -/
def transientStatuses : List Nat := [429, 500, 502, 503, 504, 520, 521, 522, 524]

/-- Status-code membership test from the retry loop. -/
def transient (status : Nat) : Bool := transientStatuses.contains status

/-- The `backoff` table of `_get_with_retries`, in seconds. -/
def backoffTable : List Nat := [1, 2, 4, 8, 15]

/-- `backoff[min(i, len(backoff) - 1)]`. -/
def backoffAt (i : Nat) : Nat := backoffTable.getD (min i (backoffTable.length - 1)) 0

instance : DecidableEq (Except PyExc Resp) := fun a b =>
  match a, b with
  | .ok x, .ok y => decidable_of_iff (x = y) (by simp)
  | .error x, .error y => decidable_of_iff (x = y) (by simp)
  | .ok _, .error _ => isFalse (by simp)
  | .error _, .ok _ => isFalse (by simp)

/-- Result of a `_get_with_retries` run: the returned response or raised
exception, how many attempts were made, and the sleeps performed (in
order). -/
structure RetryRun where
  result : Except PyExc Resp
  attemptsMade : Nat
  sleeps : List Nat
deriving DecidableEq, Repr

/-- The `for i in range(max_tries)` loop of `_get_with_retries`, from
iteration `i` on, with `fuel = max_tries - i` remaining iterations.  Fuel
`0` is the code after the loop, reachable only with `max_tries = 0`, where
both `last_resp` and `last_exc` are still `None` and
`RuntimeError("request_failed")` is raised. -/
def retryLoop (attempts : Nat → Attempt) (maxTries : Nat) : Nat → Nat → RetryRun
  | _, 0 =>
    { result := .error { typeName := "RuntimeError", msg := "request_failed" }
      attemptsMade := 0
      sleeps := [] }
  | i, fuel + 1 =>
    match attempts i with
    | .resp r =>
      if transient r.status ∧ i < maxTries - 1 then
        let rest := retryLoop attempts maxTries (i + 1) fuel
        { result := rest.result
          attemptsMade := rest.attemptsMade + 1
          sleeps := backoffAt i :: rest.sleeps }
      else { result := .ok r, attemptsMade := 1, sleeps := [] }
    | .exc e =>
      if i < maxTries - 1 then
        let rest := retryLoop attempts maxTries (i + 1) fuel
        { result := rest.result
          attemptsMade := rest.attemptsMade + 1
          sleeps := backoffAt i :: rest.sleeps }
      else { result := .error e, attemptsMade := 1, sleeps := [] }

/-- `_get_with_retries(get_fn, url, headers, timeout, max_tries)`, with the
sequence of attempt outcomes as an oracle. -/
def get_with_retries (attempts : Nat → Attempt) (maxTries : Nat) : RetryRun :=
  retryLoop attempts maxTries 0 maxTries

/-- An attempt is decisive at iteration `i` when the loop stops there:
either `i` is the last iteration, or the attempt produced a response whose
status is not transient. -/
def decisive (attempts : Nat → Attempt) (maxTries i : Nat) : Bool :=
  i = maxTries - 1 ||
    (match attempts i with
     | .resp r => !transient r.status
     | .exc _ => false)

/-- Index of the first decisive attempt at or after `i`, searching
`fuel = maxTries - 1 - i` further iterations. -/
def stopFromF (attempts : Nat → Attempt) (maxTries : Nat) : Nat → Nat → Nat
  | i, 0 => i
  | i, fuel + 1 =>
    if decisive attempts maxTries i then i else stopFromF attempts maxTries (i + 1) fuel

/-- Index of the attempt at which the retry loop stops. -/
def stopIdx (attempts : Nat → Attempt) (maxTries : Nat) : Nat :=
  stopFromF attempts maxTries 0 (maxTries - 1)

/-- How the Python function finishes when the loop stops at this attempt:
a response is returned, a raised exception propagates. -/
def attemptOutcome : Attempt → Except PyExc Resp
  | .resp r => .ok r
  | .exc e => .error e

/-! ## SKU shortening (`src/export_gomag.py`, `_shorten_sku`) -/

/-- Python `str.strip()` with no argument: remove leading and trailing
whitespace. -/
def pyStrip (s : String) : String :=
  String.mk (((s.data.dropWhile Char.isWhitespace).reverse.dropWhile
    Char.isWhitespace).reverse)

/-- Python `s[:n]`: the first `n` code points. -/
def pySlice (s : String) (n : Nat) : String := String.mk (s.data.take n)

/-- Python `str.lower()`. -/
def pyLower (s : String) : String := String.mk (s.data.map Char.toLower)

/-- Python `s.startswith(p)`. -/
def pyStartsWith (s p : String) : Bool := p.data.isPrefixOf s.data

/-- Concatenate with a separator (`sep.join(xs)` / `" | ".join(...)`). -/
def joinWith (sep : List Char) : List (List Char) → List Char
  | [] => []
  | [x] => x
  | x :: xs => x ++ sep ++ joinWith sep xs

/-- `sep.join(xs)` on strings. -/
def joinSep (sep : String) (xs : List String) : String :=
  String.mk (joinWith sep.data (xs.map String.data))

/-- Lowercase hex digit for a value below 16. -/
def hexDigitChar (n : Nat) : Char :=
  if n < 10 then Char.ofNat (48 + n) else Char.ofNat (87 + n)

/-- Fixed-width lowercase hex rendering of `n` (big-endian digits), as
`hashlib` hexdigests use. -/
def toHexFixed (width n : Nat) : String :=
  String.mk ((List.range width).map (fun i => hexDigitChar (n / 16 ^ (width - 1 - i) % 16)))

/-- UTF-8 encoding of one character, as a list of byte values. -/
def charUtf8 (c : Char) : List Nat :=
  let n := c.toNat
  if n < 128 then [n]
  else if n < 2048 then [192 + n / 64, 128 + n % 64]
  else if n < 65536 then [224 + n / 4096, 128 + n / 64 % 64, 128 + n % 64]
  else [240 + n / 262144, 128 + n / 4096 % 64, 128 + n / 64 % 64, 128 + n % 64]

/-- `sku.encode("utf-8")` as a list of byte values. -/
def utf8Bytes (s : String) : List Nat := s.data.flatMap charUtf8

/-- Addition modulo 2^32. -/
def add32 (a b : Nat) : Nat := (a + b) % 4294967296

/-- Left rotation of a 32-bit word by `n` bits. -/
def rotl32 (n x : Nat) : Nat := (x * 2 ^ n + x / 2 ^ (32 - n)) % 4294967296

/-- Bitwise complement of a 32-bit word. -/
def not32 (x : Nat) : Nat := 4294967295 - x

/-- SHA-1 message padding: `0x80`, zeros to 56 mod 64, then the bit length
as eight big-endian bytes. -/
def sha1Pad (msg : List Nat) : List Nat :=
  let len := msg.length
  let bitLen := len * 8
  let padZeros := (55 + 64 - len % 64) % 64
  msg ++ [128] ++ List.replicate padZeros 0 ++
    (List.range 8).map (fun i => bitLen / 2 ^ (8 * (7 - i)) % 256)

/-- Big-endian 32-bit word `i` of a 64-byte block. -/
def blockWord (blk : List Nat) (i : Nat) : Nat :=
  blk.getD (4 * i) 0 * 16777216 + blk.getD (4 * i + 1) 0 * 65536 +
    blk.getD (4 * i + 2) 0 * 256 + blk.getD (4 * i + 3) 0

/-- The 80-word SHA-1 message schedule of one block. -/
def sha1Schedule (blk : List Nat) : List Nat :=
  (List.range 80).foldl
    (fun ws t =>
      if t < 16 then ws ++ [blockWord blk t]
      else ws ++ [rotl32 1 (((ws.getD (t - 3) 0 ^^^ ws.getD (t - 8) 0) ^^^
        ws.getD (t - 14) 0) ^^^ ws.getD (t - 16) 0)])
    []

/-- The SHA-1 round function. -/
def sha1F (t b c d : Nat) : Nat :=
  if t < 20 then (b &&& c) ||| (not32 b &&& d)
  else if t < 40 then (b ^^^ c) ^^^ d
  else if t < 60 then ((b &&& c) ||| (b &&& d)) ||| (c &&& d)
  else (b ^^^ c) ^^^ d

/-- The SHA-1 round constants. -/
def sha1K (t : Nat) : Nat :=
  if t < 20 then 1518500249
  else if t < 40 then 1859775393
  else if t < 60 then 2400959708
  else 3395469782

/-- SHA-1 working state. -/
structure Sha1St where
  h0 : Nat
  h1 : Nat
  h2 : Nat
  h3 : Nat
  h4 : Nat
deriving DecidableEq, Repr

/-- Compression of one 64-byte block. -/
def sha1Block (st : Sha1St) (blk : List Nat) : Sha1St :=
  let ws := sha1Schedule blk
  let fin := (List.range 80).foldl
    (fun (abcde : Sha1St) t =>
      let temp := (rotl32 5 abcde.h0 + sha1F t abcde.h1 abcde.h2 abcde.h3 +
        abcde.h4 + sha1K t + ws.getD t 0) % 4294967296
      { h0 := temp, h1 := abcde.h0, h2 := rotl32 30 abcde.h1,
        h3 := abcde.h2, h4 := abcde.h3 })
    { h0 := st.h0, h1 := st.h1, h2 := st.h2, h3 := st.h3, h4 := st.h4 }
  { h0 := add32 st.h0 fin.h0, h1 := add32 st.h1 fin.h1,
    h2 := add32 st.h2 fin.h2, h3 := add32 st.h3 fin.h3,
    h4 := add32 st.h4 fin.h4 }

/-- The SHA-1 initial state. -/
def sha1Init : Sha1St :=
  { h0 := 1732584193, h1 := 4023233417, h2 := 2562383102,
    h3 := 271733878, h4 := 3285377520 }

/-- `hashlib.sha1(s.encode("utf-8")).hexdigest()`: 40 lowercase hex
characters. -/
def sha1hexdigest (s : String) : String :=
  let padded := sha1Pad (utf8Bytes s)
  let blocks := (List.range (padded.length / 64)).map
    (fun b => (padded.drop (64 * b)).take 64)
  let fin := blocks.foldl sha1Block sha1Init
  toHexFixed 8 fin.h0 ++ toHexFixed 8 fin.h1 ++ toHexFixed 8 fin.h2 ++
    toHexFixed 8 fin.h3 ++ toHexFixed 8 fin.h4

/-- `_shorten_sku` from `src/export_gomag.py` with the default
`max_len = 30`. -/
def shorten_sku (sku : String) : String :=
  let s := pyStrip sku
  if s.length ≤ 30 then s
  else
    let h := pySlice (sha1hexdigest s) 8
    let prefixLen := 30 - 1 - h.length
    pySlice s prefixLen ++ "-" ++ h

/-! ## Gomag export table (`src/export_gomag.py`, `to_gomag_dataframe`) -/

/-- The template header row.  `_load_template_headers` reads
`assets/modelImport.xlsx` and falls back to this hard-coded list; the
workbook is not part of the sources, so the fallback list is the template
order used here. -/
def template_headers : List String :=
  ["Cod Produs (SKU)",
   "Denumire Produs",
   "Descriere Produs",
   "Descriere Scurta a Produsului",
   "URL Poza de Produs",
   "Pret",
   "Pretul Include TVA",
   "Cota TVA",
   "Moneda",
   "Stoc Cantitativ",
   "Activ in Magazin",
   "Categorie / Categorii"]

/-- A cell of the export table: a string, an integer, or a number. -/
inductive Cell where
  | s (v : String)
  | i (v : Int)
  | q (v : Rat)
deriving DecidableEq, Repr

/-- A row: one cell per header, in header order. -/
def Row : Type := List (String × Cell)

instance : DecidableEq Row := by unfold Row; infer_instance

/-- `row[key] = v` on a dict whose keys are the headers: update the matching
entry.  (Keys written by `to_gomag_dataframe` that are missing from the
header row would be dropped by `DataFrame(columns=headers)`; updating only
existing keys models that.) -/
def setCell (row : Row) (key : String) (v : Cell) : Row :=
  row.map (fun kv => if kv.1 = key then (kv.1, v) else kv)

/-- Round half to even, Python's `round` on exact values. -/
def rndHalfEven (q : Rat) : Int :=
  let f := ⌊q⌋
  let r := q - f
  if r < 1 / 2 then f
  else if 1 / 2 < r then f + 1
  else if f % 2 = 0 then f else f + 1

/-- `round(x, 2)` idealised over `Rat`. -/
def pyRound2 (q : Rat) : Rat := (rndHalfEven (q * 100) : Rat) / 100

/-- The row built for one `ProductDraft` by the loop body of
`to_gomag_dataframe`. -/
def gomagRow (categoryMap : String → Option String) (p : ProductDraft) : Row :=
  let cat := (categoryMap p.source_url).getD ""
  let row : Row := template_headers.map (fun h => (h, Cell.s ""))
  let row := setCell row "Cod Produs (SKU)" (Cell.s (shorten_sku p.sku))
  let row := setCell row "Denumire Produs" (Cell.s p.title)
  let row := setCell row "Descriere Produs" (Cell.s p.description_html)
  let row := setCell row "Descriere Scurta a Produsului" (Cell.s p.short_description)
  let row := setCell row "URL Poza de Produs"
    (Cell.s (joinSep "\n" (p.images.filter (fun i => i ≠ ""))))
  let row := setCell row "Pret" (Cell.q (pyRound2 (price_final p.price)))
  let row := setCell row "Moneda" (Cell.s "RON")
  let row := setCell row "Stoc Cantitativ" (Cell.i 1)
  let row := setCell row "Activ in Magazin" (Cell.s "DA")
  let row := setCell row "Pretul Include TVA" (Cell.s "")
  let row := setCell row "Cota TVA" (Cell.i 21)
  let row := setCell row "Categorie / Categorii" (Cell.s cat)
  row

/-- `to_gomag_dataframe`: one row per product, columns the template
headers. -/
def to_gomag_dataframe (products : List ProductDraft)
    (categoryMap : String → Option String) : List Row :=
  products.map (gomagRow categoryMap)

/-- Cell lookup in a row (column projection of the DataFrame). -/
def rowGet (row : Row) (key : String) : Option Cell :=
  (row.find? (fun kv => kv.1 == key)).map (fun kv => kv.2)

/-! ## Text helpers (`src/utils.py`) -/

/-- Split at every character satisfying the separator test (an accumulator
keeps the current chunk). -/
def splitChunks (isSep : Char → Bool) : List Char → List Char → List (List Char)
  | [], acc => [acc.reverse]
  | c :: cs, acc =>
    if isSep c then acc.reverse :: splitChunks isSep cs []
    else splitChunks isSep cs (c :: acc)

/-- `clean_text`: collapse whitespace runs to single spaces and strip
(`re.sub(r"\s+", " ", s).strip()`). -/
def cleanText (s : String) : String :=
  joinSep " " (((splitChunks Char.isWhitespace s.data []).map String.mk).filter
    (fun w => w ≠ ""))

/-! ## JSON-LD product lookup (`src/scrapers/generic.py`) -/

/-- A parsed JSON value (`json.loads` output). -/
inductive JVal where
  | null
  | bool (b : Bool)
  | str (s : String)
  | num (q : Rat)
  | arr (elems : List JVal)
  | obj (fields : List (String × JVal))

/-- Python truthiness of a JSON value. -/
def jTruthy : JVal → Bool
  | .null => false
  | .bool b => b
  | .str s => s ≠ ""
  | .num q => q ≠ 0
  | .arr l => !l.isEmpty
  | .obj l => !l.isEmpty

/-- `dict.get`: the value at a key of an object, else `None`. -/
def jGet : JVal → String → Option JVal
  | .obj fields, k => (fields.find? (fun kv => kv.1 == k)).map (fun kv => kv.2)
  | _, _ => none

/-- Python `a or b` on optional JSON values (`None` and falsy values pass
to `b`). -/
def pyOrJ (a b : Option JVal) : Option JVal :=
  match a with
  | some v => if jTruthy v then some v else b
  | none => b

/-- Is this value a dict? -/
def jIsObj : JVal → Bool
  | .obj _ => true
  | _ => false

/-- `str(v)` for the values relevant here; nested containers are not
rendered faithfully (never consulted by the claims). -/
def pyStrOfJ : JVal → String
  | .str s => s
  | .bool b => if b then "True" else "False"
  | .null => "None"
  | .num q => toString q
  | .arr _ => "[unmodelled]"
  | .obj _ => "[unmodelled]"

/-- `t == "Product" or (isinstance(t, list) and "Product" in t)`. -/
def isProductType : Option JVal → Bool
  | some (.str s) => s == "Product"
  | some (.arr l) =>
      l.any (fun x => match x with | .str s => s == "Product" | _ => false)
  | _ => false

/-- `_iter_jsonld_objects`: dicts directly; dict elements of top-level
lists; everything else skipped. -/
def iterJsonldObjects (docs : List JVal) : List JVal :=
  docs.flatMap (fun d =>
    match d with
    | .obj _ => [d]
    | .arr l => l.filter jIsObj
    | _ => [])

/-- Per-object body of `_find_product_jsonld`: the object itself when its
`@type` (or `type`) is `Product`, else the first `Product` node of its
`@graph` list. -/
def findProductIn (o : JVal) : Option JVal :=
  if isProductType (pyOrJ (jGet o "@type") (jGet o "type")) then some o
  else
    match jGet o "@graph" with
    | some (.arr graph) =>
        graph.find? (fun node => jIsObj node && isProductType (jGet node "@type"))
    | _ => none

/-- `_find_product_jsonld` over the successfully parsed JSON-LD scripts. -/
def find_product_jsonld (docs : List JVal) : Option JVal :=
  (iterJsonldObjects docs).findSome? findProductIn

/-- `clean_text(str(prod.get(key) or ""))` before cleaning: the string
rendering of a truthy value, else `""`. -/
def jStrField (prod : JVal) (key : String) : String :=
  match jGet prod key with
  | some v => if jTruthy v then pyStrOfJ v else ""
  | none => ""

/-- `_jsonld_get_images`. -/
def jsonld_get_images (prod : JVal) : List String :=
  match jGet prod "image" with
  | some (.str s) => [s]
  | some (.arr l) => l.filterMap (fun x => match x with | .str s => some s | _ => none)
  | _ => []

/-- Digits to a natural number. -/
def digitsToNat (l : List Char) : Nat :=
  l.foldl (fun a c => a * 10 + (c.toNat - 48)) 0

/-- Python `float(s)` on plain decimal literals (exponent forms are not
modelled; they do not occur in the claims). -/
def pyFloat (s : String) : Option Rat :=
  let t := ((s.data.dropWhile Char.isWhitespace).reverse.dropWhile
    Char.isWhitespace).reverse
  let signed : Rat × List Char :=
    match t with
    | '-' :: rest => (-1, rest)
    | '+' :: rest => (1, rest)
    | _ => (1, t)
  match splitChunks (fun c => c = '.') signed.2 [] with
  | [ip] =>
      if !ip.isEmpty ∧ ip.all Char.isDigit then
        some (signed.1 * (digitsToNat ip : Rat))
      else none
  | [ip, fp] =>
      if (!ip.isEmpty ∨ !fp.isEmpty) ∧ ip.all Char.isDigit ∧ fp.all Char.isDigit then
        some (signed.1 * ((digitsToNat ip : Rat) +
          (digitsToNat fp : Rat) / (10 ^ fp.length : Rat)))
      else none
  | _ => none

/-- `str.replace(",", ".")`: the pattern is a single character, so a map
suffices. -/
def pyReplaceCommaDot (s : String) : String :=
  String.mk (s.data.map (fun c => if c = ',' then '.' else c))

/-- `float(str(p).replace(",", "."))` on one JSON price value: numbers
round-trip, strings are parsed, anything else raises. -/
def jPriceConv : JVal → Option Rat
  | .num q => some q
  | .str s => pyFloat (pyReplaceCommaDot s)
  | _ => none

/-- `_jsonld_get_price`. -/
def jsonld_get_price (prod : JVal) : Option Rat :=
  match jGet prod "offers" with
  | some (.obj fields) =>
      (match jGet (.obj fields) "price" with
       | none => none
       | some .null => none
       | some v => jPriceConv v)
  | some (.arr l) =>
      l.findSome? (fun o =>
        match o with
        | .obj _ =>
            (match jGet o "price" with
             | none => none
             | some .null => none
             | some v => jPriceConv v)
        | _ => none)
  | _ => none

/-! ## GenericScraper.parse field selection (`src/scrapers/generic.py`) -/

/-- Results of the DOM fallback extractors on the fetched page. -/
structure DomFallbacks where
  titleDom : String
  descDom : String
  imagesDom : List String
  priceDom : Option Rat
  skuDom : Option String
deriving DecidableEq, Repr

/-- The fields `GenericScraper.parse` settles on before building the
draft. -/
structure ParsedFields where
  title : String
  desc : String
  images : List String
  price : Option Rat
  sku : Option String
deriving DecidableEq, Repr

/-- `clean_text(str(prod.get("name") or "")) or None`. -/
def jsonldTitleOpt (prod : JVal) : Option String :=
  let t := cleanText (jStrField prod "name")
  if t ≠ "" then some t else none

/-- `clean_text(str(prod.get("sku") or "")) or None`. -/
def jsonldSkuOpt (prod : JVal) : Option String :=
  let t := cleanText (jStrField prod "sku")
  if t ≠ "" then some t else none

/-- The description taken from JSON-LD: set only when the `description`
field is a string that cleans to non-empty. -/
def jsonldDescOpt (prod : JVal) : Option String :=
  match jGet prod "description" with
  | some (.str d) =>
      if cleanText d ≠ "" then some ("<p>" ++ cleanText d ++ "</p>") else none
  | _ => none

/-- `_jsonld_get_images(prod) or None`. -/
def jsonldImagesOpt (prod : JVal) : Option (List String) :=
  let l := jsonld_get_images prod
  if l ≠ [] then some l else none

/-- The field-selection logic of `GenericScraper.parse`: JSON-LD values
first, DOM fallbacks for fields the JSON-LD leaves empty or absent. -/
def genericParseCore (docs : List JVal) (fb : DomFallbacks) : ParsedFields :=
  let prodOpt := find_product_jsonld docs
  let title0 : Option String :=
    match prodOpt with
    | some prod => jsonldTitleOpt prod
    | none => none
  let sku0 : Option String :=
    match prodOpt with
    | some prod => jsonldSkuOpt prod
    | none => none
  let desc0 : Option String :=
    match prodOpt with
    | some prod => jsonldDescOpt prod
    | none => none
  let images0 : Option (List String) :=
    match prodOpt with
    | some prod => jsonldImagesOpt prod
    | none => none
  let price0 : Option Rat :=
    match prodOpt with
    | some prod => jsonld_get_price prod
    | none => none
  { title := match title0 with | some t => t | none => fb.titleDom
    desc := match desc0 with | some d => d | none => fb.descDom
    images := match images0 with | some l => l | none => fb.imagesDom
    price := match price0 with | some p => some p | none => fb.priceDom
    sku := match sku0 with | some s => some s | none => fb.skuDom }

/-! ## Basic image extraction (`src/scrapers/generic.py`,
`_extract_images_basic`) -/

/-- An `img` tag: its `src`, `data-src` and `data-original` attributes. -/
structure ImgTag where
  src : Option String := none
  dataSrc : Option String := none
  dataOriginal : Option String := none
deriving DecidableEq, Repr

/-- Truthiness of an optional attribute value. -/
def truthyAttr : Option String → Bool
  | some s => s ≠ ""
  | none => false

/-- Python `a or b` on optional attribute strings. -/
def pyOrAttr (a b : Option String) : Option String :=
  if truthyAttr a then a else b

/-- Is `sub` an infix of the character list? -/
def isSubL (sub : List Char) : List Char → Bool
  | [] => sub.isEmpty
  | c :: cs => sub.isPrefixOf (c :: cs) || isSubL sub cs

/-- Python `sub in s` on strings. -/
def containsSub (s sub : String) : Bool :=
  isSubL sub.data s.data

/-- De-duplication with a `seen` set, keeping first occurrences. -/
def dedupSeen (seen : List String) : List String → List String
  | [] => []
  | x :: xs => if x ∈ seen then dedupSeen seen xs else x :: dedupSeen (x :: seen) xs

/-- The `seen`-set loop of `_extract_images_basic`. -/
def dedupKeepFirst (l : List String) : List String := dedupSeen [] l

/-- The body of the first loop of `_extract_images_basic` for one `img`
tag: pick `src` / `data-src` / `data-original`, skip falsy values, resolve
against the base URL, and drop `data:` URIs and URLs containing `logo`,
`icon` or `sprite`. -/
def candidateOf (urljoin : String → String → String) (baseUrl : String)
    (t : ImgTag) : Option String :=
  match pyOrAttr t.src (pyOrAttr t.dataSrc t.dataOriginal) with
  | some s =>
      if s = "" then none
      else if pyStartsWith (pyLower (urljoin baseUrl s)) "data:" then none
      else if containsSub (pyLower (urljoin baseUrl s)) "logo" ||
          containsSub (pyLower (urljoin baseUrl s)) "icon" ||
          containsSub (pyLower (urljoin baseUrl s)) "sprite" then none
      else some (urljoin baseUrl s)
  | none => none

/-- The `imgs` list built by the first loop of `_extract_images_basic`. -/
def imageCandidates (urljoin : String → String → String)
    (imgs : List ImgTag) (baseUrl : String) : List String :=
  imgs.filterMap (candidateOf urljoin baseUrl)

/-- `_extract_images_basic(soup, base_url)` over the page's `img` tags,
with `urljoin` abstracted. -/
def extract_images_basic (urljoin : String → String → String)
    (imgs : List ImgTag) (baseUrl : String) : List String :=
  (dedupKeepFirst (imageCandidates urljoin imgs baseUrl)).take 12

/-! ## Login-gated fetch (`src/scrapers/xdconnects.py`,
`src/scrapers/psiproductfinder.py`) -/

/-- How `XDConnectsScraper.parse` proceeds after reading `XD_USER` and
`XD_PASS`: either the early error draft (no browser fetch at all), or the
login-and-fetch coroutine with the stripped credentials. -/
inductive XdParseStep where
  | noCreds (notes : String)
  | loginFetch (email password : String)
deriving DecidableEq, Repr

/-- The credential gate at the top of `XDConnectsScraper.parse`. -/
def xd_parse_gate (xdUser xdPass : String) : XdParseStep :=
  let email := pyStrip xdUser
  let password := pyStrip xdPass
  if email = "" ∨ password = "" then .noCreds "xd_login=NO (missing creds)"
  else .loginFetch email password

/-- Does this step run the browser fetch? -/
def xdStepFetches : XdParseStep → Bool
  | .noCreds _ => false
  | .loginFetch _ _ => true

/-- What the PSI `_fetch_with_login` coroutine does (primary path; the
retry-after-install path repeats the same steps with an extra note). -/
structure PsiFetchPlan where
  fetchesPage : Bool
  performsLogin : Bool
  note : String
deriving DecidableEq, Repr

/-- `_fetch_with_login(url, user, password, ...)` from
`src/scrapers/psiproductfinder.py`: the target page is always loaded; the
login navigation and form fill happen only when both credentials are
non-empty, and the note records which. -/
def psi_fetch_with_login (user password : String) : PsiFetchPlan :=
  if user ≠ "" ∧ password ≠ "" then
    { fetchesPage := true, performsLogin := true
      note := "psi_pw=YES psi_login=YES" }
  else
    { fetchesPage := true, performsLogin := false
      note := "psi_pw=YES psi_login=NO" }

/-- `PSIProductFinderScraper.parse` strips the env credentials before
calling `_fetch_with_login`. -/
def psi_parse_plan (psiUser psiPass : String) : PsiFetchPlan :=
  psi_fetch_with_login (pyStrip psiUser) (pyStrip psiPass)

/-- The `notes` field of the draft `PSIProductFinderScraper.parse`
returns. -/
def psi_parse_notes (psiUser psiPass : String) : String :=
  "psi_scraper=login_v4_clean_installfix parsed_with=playwright " ++
    (psi_parse_plan psiUser psiPass).note

/-- The scrapers registered in `src/scrapers/registry.py`, in order. -/
inductive SId where
  | promobox
  | andapresent
  | xdconnects
  | pfconcept
  | sipec
  | stamina
  | utteam
  | psiproductfinder
  | clipperinterall
  | stricker
  | midocean
  | generic
deriving DecidableEq, Repr

/-- The `SCRAPERS` list of `src/scrapers/registry.py`, by identifier. -/
def registryIds : List SId :=
  [.promobox, .andapresent, .xdconnects, .pfconcept, .sipec, .stamina,
   .utteam, .psiproductfinder, .clipperinterall, .stricker, .midocean, .generic]

/-- Which registered scrapers gate their fetch on login credentials.
From the sources: `XDConnectsScraper.parse` and
`PSIProductFinderScraper.parse` read `XD_USER`/`XD_PASS` resp.
`PSI_USER`/`PSI_PASS`; `PFConceptScraper`, `StaminaScraper` and
`GenericScraper` read no credentials.  Modelled from the spec: the modules
`promobox`, `andapresent`, `sipec`, `utteam`, `clipperinterall`,
`stricker` and `midocean` are imported by the registry but missing from
the sources; the spec records a "login-gated fetch for two sites", so they
are modelled as not login-gated. -/
def usesLoginGatedFetch : SId → Bool
  | .xdconnects => true
  | .psiproductfinder => true
  | _ => false

/-! ## Gomag import UI flow (`src/gomag_ui.py`) -/

/-- What `_extract_first_row` reads off the import list page: the joined
row text, the status cell, and the (possibly empty) error link. -/
structure ImportListRow where
  firstText : String
  statusText : String
  href : String
deriving DecidableEq, Repr

/-- The three row sources `_extract_import_errors` can draw on, as text:
classic `table tbody tr` cell lists, `-g2-table` column lists, and
`#content li` items. -/
structure ErrPageRows where
  tableRows : List (List String)
  g2Rows : List (List String)
  listItems : List String
deriving DecidableEq, Repr

/-- Classic-table stage of `_extract_import_errors`. -/
def errsFromTable (p : ErrPageRows) : List String :=
  (p.tableRows.take 10).filterMap (fun tds =>
    if tds.isEmpty then none else some (joinSep " | " tds))

/-- `-g2-table` stage of `_extract_import_errors`. -/
def errsFromG2 (p : ErrPageRows) : List String :=
  (p.g2Rows.take 10).filterMap (fun cols =>
    let cols := cols.filter (fun c => c ≠ "")
    if cols.isEmpty then none else some (joinSep " | " cols))

/-- Plain-list stage of `_extract_import_errors`. -/
def errsFromItems (p : ErrPageRows) : List String :=
  (p.listItems.take 10).filterMap (fun t =>
    if t ≠ "" ∧ 5 < t.length then some t else none)

/-- `_extract_import_errors`: table rows first, then g2 rows, then list
items, each fallback only when the previous source yielded nothing. -/
def extract_import_errors (p : ErrPageRows) : List String :=
  if errsFromTable p ≠ [] then errsFromTable p
  else if errsFromG2 p ≠ [] then errsFromG2 p
  else errsFromItems p

/-- An apostrophe, kept out of string literals. -/
def sq : String := String.mk [Char.ofNat 39]

/-- The message `import_file_async` returns once the after-upload list page
(and, when consulted, the error page) have been read: first-row diffing,
then error scraping, then the OK summary.  `beforeFirst` is the first row
snapshotted before the upload, `after` the first row afterwards, `errPage`
the error page behind `after.href`. -/
def importResultMessage (beforeFirst : String) (after : ImportListRow)
    (errPage : ErrPageRows) : String :=
  if beforeFirst ≠ "" ∧ after.firstText ≠ "" ∧ after.firstText = beforeFirst then
    "Start Import apasat, dar nu a aparut un import nou in lista."
  else if after.firstText = "" then
    "Import nou detectat, dar nu am putut extrage randul din lista (nu am gasit randuri in pagina). Am salvat debug_artifacts/gomag_import_list_empty.*"
  else if after.href ≠ "" ∧
      (containsSub (pyLower after.statusText) "erori" ∨
        containsSub (pyLower after.firstText) "erori") ∧
      extract_import_errors errPage ≠ [] then
    "Finalizat cu erori. Primele erori:\n- " ++
      joinSep "\n- " ((extract_import_errors errPage).take 10)
  else
    "OK: import nou detectat. Status=" ++ sq ++ after.statusText ++ sq ++
      ". Primul rand: " ++ pySlice after.firstText 200

/-! ## Process-global side state (`src/browser.py`) -/

/-- The process-global environment the browser helpers write:
`PW_CHROMIUM_READY` and `PLAYWRIGHT_BROWSERS_PATH`. -/
structure SideState where
  pwChromiumReady : Bool
  playwrightBrowsersPath : Option String
deriving DecidableEq, Repr

/-- `_ensure_playwright_chromium_installed` (install assumed to succeed):
a no-op when `PW_CHROMIUM_READY` is already `"1"`, else it sets
`PLAYWRIGHT_BROWSERS_PATH` and marks readiness. -/
def ensurePlaywrightChromium (home : String) (st : SideState) : SideState :=
  if st.pwChromiumReady then st
  else
    { pwChromiumReady := true
      playwrightBrowsersPath := some (home ++ "/.cache/ms-playwright") }

/-- `scrape_products` with the helpers' environment writes made explicit:
scrapers whose fetch needs the browser may run the install helper, and the
drafts come from the per-URL parse oracle (the fetched page contents). -/
def scrapeProductsSt (parse : String → Except PyExc ProductDraft)
    (needsBrowser : String → Bool) (home : String) :
    List String → SideState → List ProductDraft × SideState
  | [], st => ([], st)
  | url :: rest, st =>
    let st1 := if needsBrowser url then ensurePlaywrightChromium home st else st
    let d :=
      match parse url with
      | .ok d => d
      | .error e => errorDraft url e
    let out := scrapeProductsSt parse needsBrowser home rest st1
    (d :: out.1, out.2)

/-! ## Helper lemmas -/

/-- `getD` on a mapped list at an in-range index. -/
theorem getD_map_of_lt {α β : Type} (f : α → β) (l : List α) (i : Nat)
    (hi : i < l.length) (d : β) : (l.map f).getD i d = f l[i] := by
  simp [List.getD_eq_getElem?_getD, List.getElem?_map, List.getElem?_eq_getElem hi]

/-! ## C1 -/

/-- C1: `scrape_products` returns exactly one draft per input URL, in input
order, and never raises: a position whose dispatched parse succeeds carries
the parsed draft, and a position whose parse raises carries the fallback
draft with title "(EROARE SCRAPING)", the input URL as `source_url`, empty
sku, description and images, price `None`, and the exception type and
message in `notes`. -/
theorem scrape_products_one_draft_per_url
    (parse : String → Except PyExc ProductDraft) (urls : List String) :
    (scrape_products parse urls).length = urls.length ∧
    ∀ i, (hi : i < urls.length) →
      (∀ d, parse urls[i] = .ok d →
        (scrape_products parse urls).getD i (errorDraft "" ⟨"", ""⟩) = d) ∧
      (∀ e, parse urls[i] = .error e →
        (scrape_products parse urls).getD i (errorDraft "" ⟨"", ""⟩) =
          errorDraft urls[i] e ∧
        (errorDraft urls[i] e).title = "(EROARE SCRAPING)" ∧
        (errorDraft urls[i] e).source_url = urls[i] ∧
        (errorDraft urls[i] e).sku = "" ∧
        (errorDraft urls[i] e).description_html = "" ∧
        (errorDraft urls[i] e).images = [] ∧
        (errorDraft urls[i] e).price = none ∧
        (errorDraft urls[i] e).notes = "error=" ++ e.typeName ++ ": " ++ e.msg) := by
  refine ⟨by simp [scrape_products], ?_⟩
  intro i hi
  constructor
  · intro d hd
    rw [scrape_products, getD_map_of_lt _ _ _ hi, hd]
  · intro e he
    rw [scrape_products, getD_map_of_lt _ _ _ hi, he]
    exact ⟨rfl, rfl, rfl, rfl, rfl, rfl, rfl, rfl⟩

/-- C1 witness: a one-URL list whose parse raises yields one fallback
draft. -/
theorem scrape_products_one_draft_per_url_witness :
    (scrape_products (fun _ => .error ⟨"ValueError", "boom"⟩) ["u1"]).length = 1 ∧
    (scrape_products (fun _ => .error ⟨"ValueError", "boom"⟩) ["u1"]).getD 0
        (errorDraft "" ⟨"", ""⟩) = errorDraft "u1" ⟨"ValueError", "boom"⟩ := by
  have h := scrape_products_one_draft_per_url
    (fun _ => .error ⟨"ValueError", "boom"⟩) ["u1"]
  exact ⟨h.1, ((h.2 0 (by decide)).2 ⟨"ValueError", "boom"⟩ rfl).1⟩

/-! ## C2 -/

/-- C2: `get_scraper` returns the first scraper in registry order whose
`can_handle(url)` returns `True`, skipping scrapers whose `can_handle`
raises; it is total because the last registered scraper, `GenericScraper`,
handles every url, and whenever the loop finds no handler the function
falls back to a fresh `GenericScraper`. -/
theorem get_scraper_first_match_total
    (siteScrapers : List ScraperM) (url : String) :
    (∃ s, (mkRegistry siteScrapers).find?
        (fun t => t.canHandle url == some true) = some s ∧
      get_scraper (mkRegistry siteScrapers) url = s ∧
      s.canHandle url = some true) ∧
    genericScraperM.canHandle url = some true ∧
    (∀ (registry : List ScraperM) (u : String),
      registry.find? (fun t => t.canHandle u == some true) = none →
      get_scraper registry u = genericScraperM) := by
  refine ⟨?_, rfl, ?_⟩
  · have hfind : (mkRegistry siteScrapers).find?
        (fun t => t.canHandle url == some true) =
        ((siteScrapers.find? (fun t => t.canHandle url == some true)).or
          (some genericScraperM)) := by
      rw [mkRegistry, List.find?_append]
      rfl
    cases hs : siteScrapers.find? (fun t => t.canHandle url == some true) with
    | none =>
        refine ⟨genericScraperM, ?_, ?_, rfl⟩
        · rw [hfind, hs]; rfl
        · rw [get_scraper, hfind, hs]; rfl
    | some s =>
        refine ⟨s, ?_, ?_, ?_⟩
        · rw [hfind, hs]; rfl
        · rw [get_scraper, hfind, hs]; rfl
        · have := List.find?_some hs
          simpa using this
  · intro registry u hnone
    rw [get_scraper, hnone]

/-- C2 witness: on an empty registry the loop finds nothing and the
fallback `GenericScraper` is returned. -/
theorem get_scraper_first_match_total_witness :
    get_scraper [] "https://example.com/p" = genericScraperM := by
  exact (get_scraper_first_match_total [] "https://example.com/p").2.2
    [] "https://example.com/p" rfl

/-! ## C8 -/

/-- C8: the pipeline retains no state between runs: with the fetched page
contents fixed by the per-URL parse oracle, the draft list is independent
of the process-global environment the browser helpers write
(`PW_CHROMIUM_READY`, `PLAYWRIGHT_BROWSERS_PATH`), it equals the pure
`scrape_products` of the inputs, and a second run started from the first
run's final state returns the same list. -/
theorem scrape_products_stateless
    (parse : String → Except PyExc ProductDraft)
    (needsBrowser : String → Bool) (home : String)
    (urls : List String) (st₁ st₂ : SideState) :
    (scrapeProductsSt parse needsBrowser home urls st₁).1 =
      (scrapeProductsSt parse needsBrowser home urls st₂).1 ∧
    (scrapeProductsSt parse needsBrowser home urls st₁).1 =
      scrape_products parse urls ∧
    (scrapeProductsSt parse needsBrowser home urls
        ((scrapeProductsSt parse needsBrowser home urls st₁).2)).1 =
      (scrapeProductsSt parse needsBrowser home urls st₁).1 := by
  have key : ∀ (l : List String) (st : SideState),
      (scrapeProductsSt parse needsBrowser home l st).1 = scrape_products parse l := by
    intro l
    induction l with
    | nil => intro st; rfl
    | cons u rest ih =>
        intro st
        simp only [scrapeProductsSt, scrape_products, List.map]
        rw [← scrape_products, ih]
  exact ⟨(key urls st₁).trans (key urls st₂).symm, key urls st₁,
    (key urls _).trans (key urls st₁).symm⟩

/-! ## C9 -/

/-- `pySlice` length. -/
theorem pySlice_length (s : String) (n : Nat) :
    (pySlice s n).length = min n s.length := by
  show (s.data.take n).length = min n s.data.length
  exact List.length_take n s.data

/-- `toHexFixed` renders exactly `width` characters. -/
theorem toHexFixed_length (width n : Nat) : (toHexFixed width n).length = width := by
  show ((List.range width).map _).length = width
  simp

/-- A SHA-1 hexdigest has 40 characters. -/
theorem sha1hexdigest_length (s : String) : (sha1hexdigest s).length = 40 := by
  show ((toHexFixed 8 _ ++ toHexFixed 8 _ ++ toHexFixed 8 _ ++ toHexFixed 8 _) ++
    toHexFixed 8 _).length = 40
  simp [String.length_append, toHexFixed_length]

/-- C9: `_shorten_sku` always returns at most 30 characters: a stripped
input of length at most 30 is returned as stripped, and a longer one
becomes its first 21 characters, a dash, and the first 8 hex digits of the
SHA-1 of the stripped input — exactly 30 characters. -/
theorem shorten_sku_spec (sku : String) :
    (shorten_sku sku).length ≤ 30 ∧
    ((pyStrip sku).length ≤ 30 → shorten_sku sku = pyStrip sku) ∧
    (30 < (pyStrip sku).length →
      shorten_sku sku =
        pySlice (pyStrip sku) 21 ++ "-" ++ pySlice (sha1hexdigest (pyStrip sku)) 8 ∧
      (shorten_sku sku).length = 30) := by
  have h8 : (pySlice (sha1hexdigest (pyStrip sku)) 8).length = 8 := by
    rw [pySlice_length, sha1hexdigest_length]
    rfl
  have hdef : shorten_sku sku =
      if (pyStrip sku).length ≤ 30 then pyStrip sku
      else pySlice (pyStrip sku)
          (30 - 1 - (pySlice (sha1hexdigest (pyStrip sku)) 8).length) ++ "-" ++
          pySlice (sha1hexdigest (pyStrip sku)) 8 := rfl
  by_cases h : (pyStrip sku).length ≤ 30
  · rw [hdef, if_pos h]
    exact ⟨h, fun _ => rfl, fun hgt => absurd hgt (not_lt.mpr h)⟩
  · push_neg at h
    rw [hdef, if_neg (not_le.mpr h), h8]
    have h21 : (pySlice (pyStrip sku) 21).length = 21 := by
      rw [pySlice_length]
      omega
    have hlen : (pySlice (pyStrip sku) 21 ++ "-" ++
        pySlice (sha1hexdigest (pyStrip sku)) 8).length = 30 := by
      rw [String.length_append, String.length_append, h21, h8]
      rfl
    exact ⟨le_of_eq hlen, fun hle => absurd h (not_lt.mpr hle),
      fun _ => ⟨rfl, hlen⟩⟩

/-- C9 witness: a 34-character SKU is shortened to exactly 30 characters,
21-character prefix plus dash plus 8 hash digits. -/
theorem shorten_sku_spec_witness :
    shorten_sku "abcdefghijklmnopqrstuvwxyz-ABCDEFG" =
      pySlice (pyStrip "abcdefghijklmnopqrstuvwxyz-ABCDEFG") 21 ++ "-" ++
        pySlice (sha1hexdigest (pyStrip "abcdefghijklmnopqrstuvwxyz-ABCDEFG")) 8 ∧
    (shorten_sku "abcdefghijklmnopqrstuvwxyz-ABCDEFG").length = 30 :=
  (shorten_sku_spec "abcdefghijklmnopqrstuvwxyz-ABCDEFG").2.2 (by decide)

/-! ## C4 -/

/-- `price_final` is at least 1 on every price slot. -/
theorem one_le_price_final (pr : Option FloatLike) : 1 ≤ price_final pr := by
  cases pr with
  | none => exact le_refl 1
  | some fl =>
      cases fl with
      | num q => exact le_max_left 1 (q * 2)
      | unconv => exact le_refl 1

/-- Round-half-to-even never goes below the floor. -/
theorem rndHalfEven_ge_floor (q : Rat) : ⌊q⌋ ≤ rndHalfEven q := by
  rw [rndHalfEven]
  split
  · exact le_refl _
  · split
    · omega
    · split
      · exact le_refl _
      · omega

/-- Rounding to two decimals keeps values that are at least 1 at least 1. -/
theorem one_le_pyRound2 {q : Rat} (hq : 1 ≤ q) : 1 ≤ pyRound2 q := by
  have h100 : (100 : Rat) ≤ q * 100 := by linarith
  have hfl : (100 : Int) ≤ ⌊q * 100⌋ := Int.le_floor.mpr (by exact_mod_cast h100)
  have hr : (100 : Int) ≤ rndHalfEven (q * 100) :=
    le_trans hfl (rndHalfEven_ge_floor _)
  rw [pyRound2, le_div_iff₀ (by norm_num : (0 : Rat) < 100)]
  have : (100 : Rat) ≤ (rndHalfEven (q * 100) : Rat) := by exact_mod_cast hr
  linarith

/-- The row `to_gomag_dataframe` builds for one product, written out. -/
theorem gomagRow_eq (categoryMap : String → Option String) (p : ProductDraft) :
    gomagRow categoryMap p =
      [("Cod Produs (SKU)", Cell.s (shorten_sku p.sku)),
       ("Denumire Produs", Cell.s p.title),
       ("Descriere Produs", Cell.s p.description_html),
       ("Descriere Scurta a Produsului", Cell.s p.short_description),
       ("URL Poza de Produs", Cell.s (joinSep "\n" (p.images.filter (fun i => i ≠ "")))),
       ("Pret", Cell.q (pyRound2 (price_final p.price))),
       ("Pretul Include TVA", Cell.s ""),
       ("Cota TVA", Cell.i 21),
       ("Moneda", Cell.s "RON"),
       ("Stoc Cantitativ", Cell.i 1),
       ("Activ in Magazin", Cell.s "DA"),
       ("Categorie / Categorii", Cell.s ((categoryMap p.source_url).getD ""))] := rfl

/-- C4: `to_gomag_dataframe` has one row per product with exactly the
template headers in template order; each row fixes `Moneda` = RON,
`Stoc Cantitativ` = 1, `Activ in Magazin` = DA, `Cota TVA` = 21,
`Pretul Include TVA` empty, joins the non-empty image URLs with newlines,
and sets `Pret` to `round(price_final, 2)`, which is always at least 1
because `price_final` returns 1 on a missing or unconvertible price and
`max(1, 2 * price)` otherwise. -/
theorem to_gomag_dataframe_spec (products : List ProductDraft)
    (categoryMap : String → Option String) :
    (to_gomag_dataframe products categoryMap).length = products.length ∧
    price_final none = 1 ∧
    (∀ q, price_final (some (.num q)) = max 1 (q * 2)) ∧
    price_final (some .unconv) = 1 ∧
    ∀ i, (hi : i < products.length) →
      ((to_gomag_dataframe products categoryMap).getD i []).map Prod.fst =
        template_headers ∧
      rowGet ((to_gomag_dataframe products categoryMap).getD i []) "Moneda" =
        some (Cell.s "RON") ∧
      rowGet ((to_gomag_dataframe products categoryMap).getD i []) "Stoc Cantitativ" =
        some (Cell.i 1) ∧
      rowGet ((to_gomag_dataframe products categoryMap).getD i []) "Activ in Magazin" =
        some (Cell.s "DA") ∧
      rowGet ((to_gomag_dataframe products categoryMap).getD i []) "Cota TVA" =
        some (Cell.i 21) ∧
      rowGet ((to_gomag_dataframe products categoryMap).getD i []) "Pretul Include TVA" =
        some (Cell.s "") ∧
      rowGet ((to_gomag_dataframe products categoryMap).getD i []) "URL Poza de Produs" =
        some (Cell.s (joinSep "\n" (products[i].images.filter (fun im => im ≠ "")))) ∧
      rowGet ((to_gomag_dataframe products categoryMap).getD i []) "Pret" =
        some (Cell.q (pyRound2 (price_final products[i].price))) ∧
      1 ≤ pyRound2 (price_final products[i].price) := by
  refine ⟨by simp [to_gomag_dataframe], rfl, fun q => rfl, rfl, ?_⟩
  intro i hi
  have hrow : (to_gomag_dataframe products categoryMap).getD i [] =
      gomagRow categoryMap products[i] := by
    rw [to_gomag_dataframe, getD_map_of_lt _ _ _ hi]
  rw [hrow, gomagRow_eq]
  refine ⟨rfl, rfl, rfl, rfl, rfl, rfl, rfl, rfl, ?_⟩
  exact one_le_pyRound2 (one_le_price_final _)

/-- A sample draft for the C4 witness. -/
def sampleDraft : ProductDraft :=
  { source_url := "u", domain := "", sku := "", title := "T" }

/-- C4 witness: a singleton product list yields a single row with the
documented constants. -/
theorem to_gomag_dataframe_spec_witness :
    (to_gomag_dataframe [sampleDraft] (fun _ => none)).length = 1 ∧
    ((to_gomag_dataframe [sampleDraft] (fun _ => none)).getD 0 []).map Prod.fst =
      template_headers ∧
    rowGet ((to_gomag_dataframe [sampleDraft] (fun _ => none)).getD 0 []) "Moneda" =
      some (Cell.s "RON") ∧
    1 ≤ pyRound2 (price_final sampleDraft.price) := by
  have h := to_gomag_dataframe_spec [sampleDraft] (fun _ => none)
  have h0 := h.2.2.2.2 0 (by decide)
  exact ⟨h.1, h0.1, h0.2.1, h0.2.2.2.2.2.2.2.2⟩

/-! ## C10 -/

/-- The seen-set loop only drops elements. -/
theorem dedupSeen_sublist (seen l : List String) : List.Sublist (dedupSeen seen l) l := by
  induction l generalizing seen with
  | nil => simp [dedupSeen]
  | cons x xs ih =>
      rw [dedupSeen]
      by_cases hx : x ∈ seen
      · rw [if_pos hx]
        exact (ih seen).trans (List.sublist_cons_self x xs)
      · rw [if_neg hx]
        exact (ih (x :: seen)).cons₂ x

/-- Nothing already seen is emitted. -/
theorem not_mem_seen_of_mem_dedupSeen {seen l : List String} {x : String}
    (hx : x ∈ dedupSeen seen l) : x ∉ seen := by
  induction l generalizing seen with
  | nil => simp [dedupSeen] at hx
  | cons y ys ih =>
      rw [dedupSeen] at hx
      by_cases hy : y ∈ seen
      · rw [if_pos hy] at hx
        exact ih hx
      · rw [if_neg hy] at hx
        rcases List.mem_cons.mp hx with h | h
        · subst h; exact hy
        · exact fun hmem => ih h (List.mem_cons_of_mem y hmem)

/-- The seen-set loop emits no duplicates. -/
theorem dedupSeen_nodup (seen l : List String) : (dedupSeen seen l).Nodup := by
  induction l generalizing seen with
  | nil => simp [dedupSeen]
  | cons y ys ih =>
      rw [dedupSeen]
      by_cases hy : y ∈ seen
      · rw [if_pos hy]; exact ih seen
      · rw [if_neg hy]
        refine List.nodup_cons.mpr ⟨?_, ih (y :: seen)⟩
        intro hmem
        exact not_mem_seen_of_mem_dedupSeen hmem (List.mem_cons_self y seen)

/-- Every unseen element of the input survives the seen-set loop. -/
theorem mem_dedupSeen_of_mem {l : List String} {x : String} (hx : x ∈ l)
    (seen : List String) (hns : x ∉ seen) : x ∈ dedupSeen seen l := by
  induction l generalizing seen with
  | nil => cases hx
  | cons y ys ih =>
      rw [dedupSeen]
      by_cases hy : y ∈ seen
      · rw [if_pos hy]
        rcases List.mem_cons.mp hx with h | h
        · subst h; exact absurd hy hns
        · exact ih h seen hns
      · rw [if_neg hy]
        by_cases hxy : x = y
        · subst hxy; exact List.mem_cons_self x _
        · rcases List.mem_cons.mp hx with h | h
          · exact absurd h hxy
          · refine List.mem_cons_of_mem y (ih h (y :: seen) ?_)
            intro hc
            rcases List.mem_cons.mp hc with h2 | h2
            · exact hxy h2
            · exact hns h2

/-- `pyOrAttr` only forwards one of its arguments. -/
theorem pyOrAttr_eq_some {a b : Option String} {s : String}
    (h : pyOrAttr a b = some s) : a = some s ∨ b = some s := by
  rw [pyOrAttr] at h
  by_cases ha : truthyAttr a
  · rw [if_pos ha] at h; exact Or.inl h
  · rw [if_neg ha] at h; exact Or.inr h

/-- Every collected candidate URL comes from an `img` attribute resolved
against the base URL and passes the `data:`/keyword filters. -/
theorem mem_imageCandidates {urljoin : String → String → String}
    {imgs : List ImgTag} {baseUrl : String} {u : String}
    (hu : u ∈ imageCandidates urljoin imgs baseUrl) :
    pyStartsWith (pyLower u) "data:" = false ∧
    containsSub (pyLower u) "logo" = false ∧
    containsSub (pyLower u) "icon" = false ∧
    containsSub (pyLower u) "sprite" = false ∧
    ∃ t ∈ imgs, ∃ a, (t.src = some a ∨ t.dataSrc = some a ∨ t.dataOriginal = some a) ∧
      u = urljoin baseUrl a := by
  rw [imageCandidates, List.mem_filterMap] at hu
  obtain ⟨t, ht, hf⟩ := hu
  rcases hattr : pyOrAttr t.src (pyOrAttr t.dataSrc t.dataOriginal) with _ | s
  · simp only [candidateOf, hattr] at hf
    cases hf
  · simp only [candidateOf, hattr] at hf
    by_cases hs0 : s = ""
    · rw [if_pos hs0] at hf; cases hf
    · rw [if_neg hs0] at hf
      by_cases hdata : pyStartsWith (pyLower (urljoin baseUrl s)) "data:" = true
      · rw [if_pos hdata] at hf; cases hf
      · rw [if_neg hdata] at hf
        by_cases hflt : (containsSub (pyLower (urljoin baseUrl s)) "logo" ||
            containsSub (pyLower (urljoin baseUrl s)) "icon" ||
            containsSub (pyLower (urljoin baseUrl s)) "sprite") = true
        · rw [if_pos hflt] at hf; cases hf
        · rw [if_neg hflt] at hf
          have hu' : urljoin baseUrl s = u := Option.some.inj hf
          subst hu'
          simp only [Bool.or_eq_true, not_or] at hflt
          refine ⟨by simpa using hdata,
            by simpa using hflt.1.1, by simpa using hflt.1.2, by simpa using hflt.2, ?_⟩
          refine ⟨t, ht, s, ?_, rfl⟩
          rcases pyOrAttr_eq_some hattr with h | h
          · exact Or.inl h
          · rcases pyOrAttr_eq_some h with h2 | h2
            · exact Or.inr (Or.inl h2)
            · exact Or.inr (Or.inr h2)

/-- C10: `_extract_images_basic` yields at most 12 URLs, free of
duplicates, in first-occurrence order (a sublist of the candidate scan that
retains every candidate before truncation), each resolved from an `img`
tag's `src`/`data-src`/`data-original` against the base URL, with `data:`
URIs and URLs containing `logo`, `icon` or `sprite` excluded. -/
theorem extract_images_basic_spec (urljoin : String → String → String)
    (imgs : List ImgTag) (baseUrl : String) :
    (extract_images_basic urljoin imgs baseUrl).length ≤ 12 ∧
    (extract_images_basic urljoin imgs baseUrl).Nodup ∧
    List.Sublist (extract_images_basic urljoin imgs baseUrl)
      (imageCandidates urljoin imgs baseUrl) ∧
    (∀ u ∈ imageCandidates urljoin imgs baseUrl,
      u ∈ dedupKeepFirst (imageCandidates urljoin imgs baseUrl)) ∧
    (∀ u ∈ extract_images_basic urljoin imgs baseUrl,
      pyStartsWith (pyLower u) "data:" = false ∧
      containsSub (pyLower u) "logo" = false ∧
      containsSub (pyLower u) "icon" = false ∧
      containsSub (pyLower u) "sprite" = false ∧
      ∃ t ∈ imgs, ∃ a, (t.src = some a ∨ t.dataSrc = some a ∨ t.dataOriginal = some a) ∧
        u = urljoin baseUrl a) := by
  have hsub : List.Sublist (extract_images_basic urljoin imgs baseUrl)
      (imageCandidates urljoin imgs baseUrl) := by
    rw [extract_images_basic]
    exact (List.take_sublist _ _).trans (dedupSeen_sublist [] _)
  refine ⟨?_, ?_, hsub, ?_, ?_⟩
  · rw [extract_images_basic]
    calc ((dedupKeepFirst (imageCandidates urljoin imgs baseUrl)).take 12).length
        = min 12 (dedupKeepFirst (imageCandidates urljoin imgs baseUrl)).length :=
          List.length_take _ _
      _ ≤ 12 := min_le_left _ _
  · rw [extract_images_basic]
    exact (dedupSeen_nodup [] _).sublist (List.take_sublist _ _)
  · intro u hu
    exact mem_dedupSeen_of_mem hu [] (List.not_mem_nil u)
  · intro u hu
    exact mem_imageCandidates (hsub.subset hu)

/-- Sample page data for the C10 witness. -/
def sampleImgs : List ImgTag :=
  [{ src := some "x.jpg" }, { src := some "logo.png" }, { src := some "x.jpg" }]

/-- C10 witness: a duplicated image URL is kept once and survives the
filters. -/
theorem extract_images_basic_spec_witness :
    "http://a/x.jpg" ∈
      dedupKeepFirst (imageCandidates (fun b s => b ++ s) sampleImgs "http://a/") ∧
    containsSub (pyLower "http://a/x.jpg") "logo" = false := by
  have h := extract_images_basic_spec (fun b s => b ++ s) sampleImgs "http://a/"
  have hmem : "http://a/x.jpg" ∈ imageCandidates (fun b s => b ++ s) sampleImgs "http://a/" := by
    decide
  have hout : "http://a/x.jpg" ∈ extract_images_basic (fun b s => b ++ s) sampleImgs "http://a/" := by
    decide
  exact ⟨h.2.2.2.1 "http://a/x.jpg" hmem, (h.2.2.2.2 "http://a/x.jpg" hout).2.1⟩

/-! ## C6 -/

/-- C6: exactly two registered scrapers gate on login credentials, and
they gate differently: `XDConnectsScraper.parse` returns the
`xd_login=NO (missing creds)` draft with no fetch at all when `XD_USER` or
`XD_PASS` strips to empty, and otherwise proceeds to the login fetch;
`PSIProductFinderScraper`'s `_fetch_with_login` always loads the page and
performs the login steps only when both `PSI_USER` and `PSI_PASS` are
non-empty, recording `psi_login=YES` / `psi_login=NO` in the draft's
notes. -/
theorem login_gated_scrapers_spec :
    registryIds.filter usesLoginGatedFetch = [SId.xdconnects, SId.psiproductfinder] ∧
    (∀ u p, pyStrip u = "" ∨ pyStrip p = "" →
      xd_parse_gate u p = .noCreds "xd_login=NO (missing creds)" ∧
      xdStepFetches (xd_parse_gate u p) = false) ∧
    (∀ u p, pyStrip u ≠ "" → pyStrip p ≠ "" →
      xd_parse_gate u p = .loginFetch (pyStrip u) (pyStrip p) ∧
      xdStepFetches (xd_parse_gate u p) = true) ∧
    (∀ u p, (psi_parse_plan u p).fetchesPage = true) ∧
    (∀ u p, pyStrip u ≠ "" → pyStrip p ≠ "" →
      (psi_parse_plan u p).performsLogin = true ∧
      psi_parse_notes u p =
        "psi_scraper=login_v4_clean_installfix parsed_with=playwright psi_pw=YES psi_login=YES") ∧
    (∀ u p, pyStrip u = "" ∨ pyStrip p = "" →
      (psi_parse_plan u p).performsLogin = false ∧
      psi_parse_notes u p =
        "psi_scraper=login_v4_clean_installfix parsed_with=playwright psi_pw=YES psi_login=NO") := by
  refine ⟨rfl, ?_, ?_, ?_, ?_, ?_⟩
  · intro u p h
    have hgate : xd_parse_gate u p = .noCreds "xd_login=NO (missing creds)" := by
      rw [xd_parse_gate, if_pos h]
    exact ⟨hgate, by rw [hgate]; rfl⟩
  · intro u p hu hp
    have hgate : xd_parse_gate u p = .loginFetch (pyStrip u) (pyStrip p) := by
      rw [xd_parse_gate, if_neg (by tauto)]
    exact ⟨hgate, by rw [hgate]; rfl⟩
  · intro u p
    rw [psi_parse_plan, psi_fetch_with_login]
    by_cases h : pyStrip u ≠ "" ∧ pyStrip p ≠ ""
    · rw [if_pos h]
    · rw [if_neg h]
  · intro u p hu hp
    have hplan : psi_parse_plan u p =
        { fetchesPage := true, performsLogin := true
          note := "psi_pw=YES psi_login=YES" } := by
      rw [psi_parse_plan, psi_fetch_with_login, if_pos ⟨hu, hp⟩]
    refine ⟨by rw [hplan], ?_⟩
    rw [psi_parse_notes, hplan]
    decide
  · intro u p h
    have hplan : psi_parse_plan u p =
        { fetchesPage := true, performsLogin := false
          note := "psi_pw=YES psi_login=NO" } := by
      rw [psi_parse_plan, psi_fetch_with_login, if_neg (by tauto)]
    refine ⟨by rw [hplan], ?_⟩
    rw [psi_parse_notes, hplan]
    decide

/-- C6 witness: missing XD credentials stop before any fetch, while PSI
with no credentials still fetches and notes `psi_login=NO`. -/
theorem login_gated_scrapers_spec_witness :
    xd_parse_gate "" "secret" = .noCreds "xd_login=NO (missing creds)" ∧
    xdStepFetches (xd_parse_gate "" "secret") = false ∧
    (psi_parse_plan "" "").fetchesPage = true ∧
    (psi_parse_plan "" "").performsLogin = false ∧
    (psi_parse_plan "user" "pass").performsLogin = true := by
  have h := login_gated_scrapers_spec
  have hxd := h.2.1 "" "secret" (Or.inl (by decide))
  have hpsiNo := h.2.2.2.2.2 "" "" (Or.inl (by decide))
  have hpsiYes := h.2.2.2.2.1 "user" "pass" (by decide) (by decide)
  exact ⟨hxd.1, hxd.2, h.2.2.2.1 "" "", hpsiNo.1, hpsiYes.1⟩

/-! ## C7 -/

/-- C7: `import_file_async` reports "no new import" exactly when the
before- and after-upload first rows are both non-empty and equal; when a
new first row carries an error link and its status or row text contains
"erori" and the error page yields lines, it returns the first at most 10
extracted lines; the error page is not consulted without a link; and
`_extract_import_errors` draws on classic table rows, then g2 rows, then
list items, each fallback only when the previous source was empty. -/
theorem import_result_spec (beforeFirst : String) (after : ImportListRow)
    (errPage : ErrPageRows) :
    (beforeFirst ≠ "" → after.firstText ≠ "" → after.firstText = beforeFirst →
      importResultMessage beforeFirst after errPage =
        "Start Import apasat, dar nu a aparut un import nou in lista.") ∧
    (¬ (beforeFirst ≠ "" ∧ after.firstText ≠ "" ∧ after.firstText = beforeFirst) →
      after.firstText ≠ "" →
      after.href ≠ "" →
      (containsSub (pyLower after.statusText) "erori" = true ∨
        containsSub (pyLower after.firstText) "erori" = true) →
      extract_import_errors errPage ≠ [] →
      importResultMessage beforeFirst after errPage =
        "Finalizat cu erori. Primele erori:\n- " ++
          joinSep "\n- " ((extract_import_errors errPage).take 10) ∧
      ((extract_import_errors errPage).take 10).length ≤ 10) ∧
    (∀ ep₂, after.href = "" →
      importResultMessage beforeFirst after errPage =
        importResultMessage beforeFirst after ep₂) ∧
    (errsFromTable errPage ≠ [] →
      extract_import_errors errPage = errsFromTable errPage) ∧
    (errsFromTable errPage = [] → errsFromG2 errPage ≠ [] →
      extract_import_errors errPage = errsFromG2 errPage) ∧
    (errsFromTable errPage = [] → errsFromG2 errPage = [] →
      extract_import_errors errPage = errsFromItems errPage) := by
  refine ⟨?_, ?_, ?_, ?_, ?_, ?_⟩
  · intro h1 h2 h3
    rw [importResultMessage, if_pos ⟨h1, h2, h3⟩]
  · intro hne hft hhref herori herrs
    rw [importResultMessage, if_neg hne, if_neg (by simpa using hft),
      if_pos ⟨hhref, herori, herrs⟩]
    refine ⟨rfl, ?_⟩
    calc ((extract_import_errors errPage).take 10).length
        = min 10 (extract_import_errors errPage).length := List.length_take _ _
      _ ≤ 10 := min_le_left _ _
  · intro ep₂ hhref
    simp [importResultMessage, hhref]
  · intro h
    rw [extract_import_errors, if_pos h]
  · intro h1 h2
    rw [extract_import_errors, if_neg (by simpa using h1), if_pos h2]
  · intro h1 h2
    rw [extract_import_errors, if_neg (by simpa using h1), if_neg (by simpa using h2)]

/-- Sample after-upload row for the C7 witness. -/
def sampleAfterRow : ImportListRow :=
  { firstText := "import.xlsx | 3 erori", statusText := "3 erori"
    href := "/gomag/product/import/err/5" }

/-- Sample error page for the C7 witness. -/
def sampleErrPage : ErrPageRows :=
  { tableRows := [["SKU lipsa", "rand 2"]], g2Rows := [], listItems := [] }

/-- C7 witness: a changed first row with an error link and "erori" status
returns the joined first error lines. -/
theorem import_result_spec_witness :
    importResultMessage "old row" sampleAfterRow sampleErrPage =
      "Finalizat cu erori. Primele erori:\n- " ++
        joinSep "\n- " ((extract_import_errors sampleErrPage).take 10) ∧
    extract_import_errors sampleErrPage = errsFromTable sampleErrPage := by
  have h := import_result_spec "old row" sampleAfterRow sampleErrPage
  exact ⟨(h.2.1 (by decide) (by decide) (by decide) (Or.inl (by decide)) (by decide)).1,
    h.2.2.2.1 (by decide)⟩

/-! ## C5 -/

/-- C5: in `GenericScraper.parse`, JSON-LD takes precedence: with a
Product object found by `_find_product_jsonld`, the title is the cleaned
JSON-LD name when non-empty, the images are the JSON-LD image list when
non-empty, the description comes from a JSON-LD string description that
cleans to non-empty, the price from the JSON-LD offers when present; the
DOM fallbacks are used exactly for the fields the JSON-LD object leaves
empty or absent. -/
theorem generic_parse_jsonld_precedence (docs : List JVal) (fb : DomFallbacks)
    (prod : JVal) (hp : find_product_jsonld docs = some prod) :
    (cleanText (jStrField prod "name") ≠ "" →
      (genericParseCore docs fb).title = cleanText (jStrField prod "name")) ∧
    (cleanText (jStrField prod "name") = "" →
      (genericParseCore docs fb).title = fb.titleDom) ∧
    (∀ d, jGet prod "description" = some (.str d) → cleanText d ≠ "" →
      (genericParseCore docs fb).desc = "<p>" ++ cleanText d ++ "</p>") ∧
    (jsonldDescOpt prod = none → (genericParseCore docs fb).desc = fb.descDom) ∧
    (jsonld_get_images prod ≠ [] →
      (genericParseCore docs fb).images = jsonld_get_images prod) ∧
    (jsonld_get_images prod = [] →
      (genericParseCore docs fb).images = fb.imagesDom) ∧
    (∀ q, jsonld_get_price prod = some q →
      (genericParseCore docs fb).price = some q) ∧
    (jsonld_get_price prod = none →
      (genericParseCore docs fb).price = fb.priceDom) := by
  refine ⟨?_, ?_, ?_, ?_, ?_, ?_, ?_, ?_⟩
  · intro h
    simp [genericParseCore, hp, jsonldTitleOpt, h]
  · intro h
    simp [genericParseCore, hp, jsonldTitleOpt, h]
  · intro d hd hne
    simp [genericParseCore, hp, jsonldDescOpt, hd, hne]
  · intro hnone
    simp [genericParseCore, hp, hnone]
  · intro h
    simp [genericParseCore, hp, jsonldImagesOpt, h]
  · intro h
    simp [genericParseCore, hp, jsonldImagesOpt, h]
  · intro q hq
    simp [genericParseCore, hp, hq]
  · intro h
    simp [genericParseCore, hp, h]

/-- Sample JSON-LD Product for the C5 witness. -/
def sampleProdJson : JVal :=
  .obj [("@type", .str "Product"), ("name", .str " A  B "),
        ("image", .arr [.str "img1", .num 3])]

/-- Sample DOM fallback results for the C5 witness. -/
def sampleFb : DomFallbacks :=
  { titleDom := "dom title", descDom := "dom desc", imagesDom := ["domimg"]
    priceDom := none, skuDom := none }

/-- C5 witness: with a JSON-LD Product carrying a name and images but no
offers, the parse takes title and images from JSON-LD and the price from
the DOM fallback. -/
theorem generic_parse_jsonld_precedence_witness :
    (genericParseCore [sampleProdJson] sampleFb).title =
      cleanText (jStrField sampleProdJson "name") ∧
    (genericParseCore [sampleProdJson] sampleFb).images =
      jsonld_get_images sampleProdJson ∧
    (genericParseCore [sampleProdJson] sampleFb).price = sampleFb.priceDom := by
  have h := generic_parse_jsonld_precedence [sampleProdJson] sampleFb
    sampleProdJson rfl
  exact ⟨h.1 (by decide), h.2.2.2.2.1 (by decide), h.2.2.2.2.2.2.2 rfl⟩

/-! ## C3 -/

/-- The stop search never moves left. -/
theorem stopFromF_ge (a : Nat → Attempt) (n : Nat) :
    ∀ fuel i, i ≤ stopFromF a n i fuel := by
  intro fuel
  induction fuel with
  | zero => intro i; exact le_refl i
  | succ f ih =>
      intro i
      rw [stopFromF]
      by_cases h : decisive a n i = true
      · rw [if_pos h]
      · rw [if_neg h]
        exact le_trans (Nat.le_succ i) (ih (i + 1))

/-- The stop search moves at most `fuel` steps. -/
theorem stopFromF_le (a : Nat → Attempt) (n : Nat) :
    ∀ fuel i, stopFromF a n i fuel ≤ i + fuel := by
  intro fuel
  induction fuel with
  | zero => intro i; exact Nat.le_add_right i 0
  | succ f ih =>
      intro i
      rw [stopFromF]
      by_cases h : decisive a n i = true
      · rw [if_pos h]; omega
      · rw [if_neg h]
        have := ih (i + 1)
        omega

/-- Every index strictly before the stop index is indecisive. -/
theorem stopFromF_not_decisive (a : Nat → Attempt) (n : Nat) :
    ∀ fuel i j, i ≤ j → j < stopFromF a n i fuel → decisive a n j = false := by
  intro fuel
  induction fuel with
  | zero =>
      intro i j hij hj
      rw [stopFromF] at hj
      omega
  | succ f ih =>
      intro i j hij hj
      rw [stopFromF] at hj
      by_cases h : decisive a n i = true
      · rw [if_pos h] at hj; omega
      · rw [if_neg h] at hj
        by_cases hji : j = i
        · subst hji
          exact Bool.not_eq_true _ |>.mp h
        · exact ih (i + 1) j (by omega) hj

/-- The stop index is decisive unless the fuel ran out. -/
theorem stopFromF_decisive_or_top (a : Nat → Attempt) (n : Nat) :
    ∀ fuel i, decisive a n (stopFromF a n i fuel) = true ∨
      stopFromF a n i fuel = i + fuel := by
  intro fuel
  induction fuel with
  | zero => intro i; right; rw [stopFromF]; omega
  | succ f ih =>
      intro i
      rw [stopFromF]
      by_cases h : decisive a n i = true
      · rw [if_pos h]; exact Or.inl h
      · rw [if_neg h]
        rcases ih (i + 1) with hl | hr
        · exact Or.inl hl
        · right; omega

/-- Unfolding of the retry loop when the attempt returns a response. -/
theorem retryLoop_succ_resp (a : Nat → Attempt) (n i fuel : Nat) (r : Resp)
    (hai : a i = .resp r) :
    retryLoop a n i (fuel + 1) =
      if transient r.status ∧ i < n - 1 then
        { result := (retryLoop a n (i + 1) fuel).result
          attemptsMade := (retryLoop a n (i + 1) fuel).attemptsMade + 1
          sleeps := backoffAt i :: (retryLoop a n (i + 1) fuel).sleeps }
      else { result := .ok r, attemptsMade := 1, sleeps := [] } := by
  simp only [retryLoop, hai]

/-- Unfolding of the retry loop when the attempt raises. -/
theorem retryLoop_succ_exc (a : Nat → Attempt) (n i fuel : Nat) (e : PyExc)
    (hai : a i = .exc e) :
    retryLoop a n i (fuel + 1) =
      if i < n - 1 then
        { result := (retryLoop a n (i + 1) fuel).result
          attemptsMade := (retryLoop a n (i + 1) fuel).attemptsMade + 1
          sleeps := backoffAt i :: (retryLoop a n (i + 1) fuel).sleeps }
      else { result := .error e, attemptsMade := 1, sleeps := [] } := by
  simp only [retryLoop, hai]

/-- Unfolding of the stop search. -/
theorem stopFromF_succ (a : Nat → Attempt) (n i fuel : Nat) :
    stopFromF a n i (fuel + 1) =
      if decisive a n i then i else stopFromF a n (i + 1) fuel := by
  simp only [stopFromF]

/-- Characterization of the retry loop from iteration `i` with
`fuel = max_tries - 1 - i`: it stops at the first decisive attempt, makes
one attempt per visited index, sleeps the backoff value before each retry,
and finishes with the stopping attempt's outcome. -/
theorem retryLoop_char (a : Nat → Attempt) (n : Nat) :
    ∀ fuel i, fuel = n - 1 - i → i ≤ n - 1 → 0 < n →
      retryLoop a n i (fuel + 1) =
        { result := attemptOutcome (a (stopFromF a n i fuel))
          attemptsMade := stopFromF a n i fuel - i + 1
          sleeps := (List.range' i (stopFromF a n i fuel - i)).map backoffAt } := by
  intro fuel
  induction fuel with
  | zero =>
      intro i hfuel hile hn
      have hnot : ¬ (i < n - 1) := by omega
      cases hai : a i with
      | resp r =>
          rw [retryLoop_succ_resp a n i 0 r hai, if_neg (by tauto)]
          congr 1
          · simp only [stopFromF, hai, attemptOutcome]
          · simp only [stopFromF]; omega
          · simp only [stopFromF, Nat.sub_self]; rfl
      | exc e =>
          rw [retryLoop_succ_exc a n i 0 e hai, if_neg hnot]
          congr 1
          · simp only [stopFromF, hai, attemptOutcome]
          · simp only [stopFromF]; omega
          · simp only [stopFromF, Nat.sub_self]; rfl
  | succ f ih =>
      intro i hfuel hile hn
      have hilt : i < n - 1 := by omega
      have hrec := ih (i + 1) (by omega) (by omega) hn
      have hk1 : i + 1 ≤ stopFromF a n (i + 1) f := stopFromF_ge a n f (i + 1)
      have hkk : stopFromF a n (i + 1) f - i =
          (stopFromF a n (i + 1) f - (i + 1)) + 1 := by omega
      cases hai : a i with
      | resp r =>
          by_cases htr : transient r.status = true
          · have hdec : ¬ (decisive a n i = true) := by
              rw [decisive, hai]
              simp [htr]
              omega
            have hstop : stopFromF a n i (f + 1) = stopFromF a n (i + 1) f := by
              rw [stopFromF_succ, if_neg hdec]
            rw [retryLoop_succ_resp a n i (f + 1) r hai, if_pos ⟨htr, hilt⟩,
              hrec, hstop]
            dsimp only
            congr 1
            · omega
            · rw [hkk, List.range'_succ]; rfl
          · have hdec : decisive a n i = true := by
              rw [decisive, hai]
              simp [htr]
            have hstop : stopFromF a n i (f + 1) = i := by
              rw [stopFromF_succ, if_pos hdec]
            rw [retryLoop_succ_resp a n i (f + 1) r hai,
              if_neg (by simp [htr]), hstop]
            congr 1
            · rw [hai]; rfl
            · omega
            · rw [Nat.sub_self]; rfl
      | exc e =>
          have hdec : ¬ (decisive a n i = true) := by
            rw [decisive, hai]
            simp
            omega
          have hstop : stopFromF a n i (f + 1) = stopFromF a n (i + 1) f := by
            rw [stopFromF_succ, if_neg hdec]
          rw [retryLoop_succ_exc a n i (f + 1) e hai, if_pos hilt, hrec, hstop]
          dsimp only
          congr 1
          · omega
          · rw [hkk, List.range'_succ]; rfl

/-- Does this attempt raise? -/
def isExcAttempt : Attempt → Bool
  | .resp _ => false
  | .exc _ => true

/-- C3 (amended): `_get_with_retries` with `max_tries = n` makes at most
`n` attempts, stopping at the first attempt whose response status lies
outside {429, 500, 502, 503, 504, 520, 521, 522, 524}; every earlier
attempt was a transient response or an exception, each followed by a sleep
of `backoff[min(i, 4)]` seconds; and the run finishes with the stopping
attempt's own outcome: its response is returned, or the exception it
raised propagates. -/
theorem get_with_retries_spec (a : Nat → Attempt) (n : Nat) (hn : 0 < n) :
    (get_with_retries a n).attemptsMade = stopIdx a n + 1 ∧
    (get_with_retries a n).attemptsMade ≤ n ∧
    (get_with_retries a n).result = attemptOutcome (a (stopIdx a n)) ∧
    (get_with_retries a n).sleeps = (List.range (stopIdx a n)).map backoffAt ∧
    stopIdx a n ≤ n - 1 ∧
    (∀ j, j < stopIdx a n →
      (∃ r, a j = .resp r ∧ transient r.status = true) ∨ (∃ e, a j = .exc e)) ∧
    (stopIdx a n < n - 1 →
      ∃ r, a (stopIdx a n) = .resp r ∧ transient r.status = false) ∧
    (∀ i, backoffAt i = backoffTable.getD (min i 4) 0) := by
  have hchar := retryLoop_char a n (n - 1) 0 (by omega) (by omega) hn
  have hrun : get_with_retries a n = retryLoop a n 0 (n - 1 + 1) := by
    rw [get_with_retries]
    congr 1
    omega
  have hmain : get_with_retries a n =
      { result := attemptOutcome (a (stopIdx a n))
        attemptsMade := stopIdx a n - 0 + 1
        sleeps := (List.range' 0 (stopIdx a n - 0)).map backoffAt } := by
    rw [hrun, hchar]; rfl
  have hle : stopIdx a n ≤ n - 1 := by
    have := stopFromF_le a n (n - 1) 0
    rw [stopIdx]
    omega
  have hsi : stopIdx a n = stopFromF a n 0 (n - 1) := rfl
  refine ⟨by rw [hmain]; dsimp only; omega, by rw [hmain]; dsimp only; omega,
    by rw [hmain], ?_, hle, ?_, ?_, fun i => rfl⟩
  · rw [hmain]
    dsimp only
    rw [Nat.sub_zero, ← List.range_eq_range']
  · intro j hj
    have hnd : decisive a n j = false :=
      stopFromF_not_decisive a n (n - 1) 0 j (Nat.zero_le j) hj
    rw [decisive] at hnd
    simp only [Bool.or_eq_false_iff] at hnd
    cases haj : a j with
    | resp r =>
        left
        refine ⟨r, rfl, ?_⟩
        have := hnd.2
        rw [haj] at this
        simp at this
        exact this
    | exc e => exact Or.inr ⟨e, rfl⟩
  · intro hlt
    rcases stopFromF_decisive_or_top a n (n - 1) 0 with hdec | htop
    · rw [← hsi, decisive] at hdec
      simp only [Bool.or_eq_true] at hdec
      rcases hdec with htopeq | hmatch
      · exfalso
        simp at htopeq
        omega
      · cases haj : a (stopIdx a n) with
        | resp r =>
            refine ⟨r, rfl, ?_⟩
            rw [haj] at hmatch
            simp at hmatch
            exact hmatch
        | exc e =>
            exfalso
            rw [haj] at hmatch
            simp at hmatch
    · exfalso
      rw [← hsi] at htop
      omega

/-- The attempt trace of the C3 counterexample: attempt 0 returns a 429
response, attempt 1 raises. -/
def mixedAttempts : Nat → Attempt := fun i =>
  if i = 0 then .resp { id := 7, status := 429 }
  else .exc { typeName := "ReadTimeout", msg := "t" }

/-- C3 counterexample: with `max_tries = 2`, attempt 0 a 429 response and
attempt 1 an exception, not every attempt raised and a response was
received, yet the run re-raises the final exception instead of returning
the last response — the claim's "the last response is returned, or, if
every attempt raised, the last exception is re-raised" fails here. -/
theorem get_with_retries_counterexample :
    (get_with_retries mixedAttempts 2).result =
      .error { typeName := "ReadTimeout", msg := "t" } ∧
    mixedAttempts 0 = .resp { id := 7, status := 429 } ∧
    isExcAttempt (mixedAttempts 0) = false ∧
    (get_with_retries mixedAttempts 2).result ≠ .ok { id := 7, status := 429 } := by
  decide

/-- C3 witness: the amended characterization applied to the concrete mixed
trace with two tries. -/
theorem get_with_retries_spec_witness :
    (get_with_retries mixedAttempts 2).attemptsMade = stopIdx mixedAttempts 2 + 1 ∧
    (get_with_retries mixedAttempts 2).result =
      attemptOutcome (mixedAttempts (stopIdx mixedAttempts 2)) ∧
    (get_with_retries mixedAttempts 2).sleeps =
      (List.range (stopIdx mixedAttempts 2)).map backoffAt := by
  have h := get_with_retries_spec mixedAttempts 2 (by decide)
  exact ⟨h.1, h.2.2.1, h.2.2.2.1⟩

end Gomag
